import Mathlib

/-!
Verification of the node-bootstrap orchestrator of cherami-server
(`cmd/servicecmd/servicestartcmd.go`).

The file shallowly embeds the six `StartXService` functions as a single
dispatcher over a `Role` inductive; the per-role differences (service name,
fatal log message, presence of a websocket transport, identity source,
storage options) are recorded in tables read off each Go function.
External effects (os.Setenv, metadata-client construction, uuid.New,
os.Getenv, command-line flags) are inputs in a `SysEnv` record, and the
observable behaviour of a bootstrap run is a list of `Event`s.
-/

namespace Cherami

/-- The six node roles a process can start as (the six entry points of
`servicestartcmd.go`). -/
inductive Role
  | input
  | controller
  | frontend
  | output
  | store
  | replicator
deriving DecidableEq, Repr

/-- Per-role service configuration, as read through
`cfg.GetServiceConfig(serviceName)`: primary port, websocket port and
listen address. -/
structure ServiceConfig where
  port : Nat
  websocketPort : Nat
  listenAddress : String
deriving DecidableEq, Repr

/-- Storage configuration (`cfg.GetStorageConfig()`): the `Store` backend
hint, the `BaseDir` path and the provisioned `HostUUID`. -/
structure StorageConfig where
  store : String
  baseDir : String
  hostUUID : String
deriving DecidableEq, Repr

/-- The resolved server configuration: a per-role service config plus the
storage config. The Go code keys `GetServiceConfig` by the service-name
constant of the role being started; we key it by the role directly. -/
structure ServerConfig where
  getServiceConfig : Role → ServiceConfig
  storageConfig : StorageConfig

/-- The external effects a bootstrap run observes, modelled as inputs:
the result of `os.Setenv("port", ...)` (`some err` means failure), the
result of `metadata.NewCassandraMetadataService`, the value drawn by
`uuid.New()`, the value of `os.Getenv("CHERAMI_STORE")` (empty when
unset, as in Go), and the `--store` / `--dir` command-line flags
(`none` when not supplied, in which case `flag.StringVar` applies its
default). -/
structure SysEnv where
  cfg : ServerConfig
  setenvResult : Option String
  metaResult : Except String Unit
  freshUUID : String
  cheramiStore : String
  cliStore : Option String
  cliDir : Option String

/-- `diagnosticPortOffset` constant from `servicestartcmd.go` line 53. -/
def diagnosticPortOffset : Nat := 10000

/-- Whether the role starts a websocket server (`common.WSStart`):
input (line 78), output (line 160), store (line 232) and replicator
(line 261) do; controller and frontend do not. -/
def hasWebsocket : Role → Bool
  | .input => true
  | .controller => false
  | .frontend => false
  | .output => true
  | .store => true
  | .replicator => true

/-- The literal fatal log message each role emits when
`metadata.NewCassandraMetadataService` fails, verbatim from the source
(lines 66, 96, 118, 144, 177, 250). -/
def fatalMsg : Role → String
  | .input => "inputhost: unable to instantiate metadata client"
  | .controller => "unable to instantiate metadata service (did you run ./scripts/setup_cassandra_schema.sh?)"
  | .frontend => "frontendhost: unable to instantiate metadata service"
  | .output => "frontendhost: unable to instantiate metadata service"
  | .store => "storehost: unable to instantiate metadata client"
  | .replicator => "frontendhost: unable to instantiate metadata service"

/-- The UUID passed to `common.NewService`: the store role passes
`cfg.GetStorageConfig().GetHostUUID()` (line 183); every other role
passes `uuid.New()` (lines 73, 101, 124, 150, 255). -/
def resolveIdentity (r : Role) (env : SysEnv) : String :=
  match r with
  | .store => env.cfg.storageConfig.hostUUID
  | _ => env.freshUUID

/-- All suffixes of a character list, longest first. -/
def suffixes : List Char → List (List Char)
  | [] => [[]]
  | c :: t => (c :: t) :: suffixes t

/-- Substring containment on character lists: some suffix of `s` has
`pat` as a prefix. -/
def containsChars (s pat : List Char) : Bool :=
  (suffixes s).any fun t => pat.isPrefixOf t

/-- Go `strings.Contains s pat`. -/
def containsSub (s pat : String) : Bool :=
  containsChars s.toList pat.toList

/-- Go `strings.ToLower` restricted to ASCII (all backend tokens are
ASCII), as the lower-cased character list. -/
def lowerChars (s : String) : List Char :=
  s.toList.map Char.toLower

/-- The storage-engine kinds of `storehost` selectable in the backend
switch (lines 194-209). -/
inductive BackendKind
  | rockstor
  | chunky
  | manyRocks
  | rockCFstor
deriving DecidableEq, Repr

/-- The token `rockstor` of the backend switch (line 195). -/
def rockstorTok : List Char := "rockstor".toList

/-- The token `chunky` of the backend switch (line 198). -/
def chunkyTok : List Char := "chunky".toList

/-- The token `manyrocks` of the backend switch (line 201). -/
def manyrocksTok : List Char := "manyrocks".toList

/-- The token `rockcfstor` of the backend switch (line 204). -/
def rockcfstorTok : List Char := "rockcfstor".toList

/-- Backend resolution, lines 194-209: lower-case the raw name, then a
`switch` testing `strings.Contains` against `rockstor`, `chunky`,
`manyrocks`, `rockcfstor` in that order; the default case sets no
kind. -/
def resolveBackend (raw : String) : Option BackendKind :=
  let s := lowerChars raw
  if containsChars s rockstorTok then some .rockstor
  else if containsChars s chunkyTok then some .chunky
  else if containsChars s manyrocksTok then some .manyRocks
  else if containsChars s rockcfstorTok then some .rockCFstor
  else none

/-- The spec's wording of backend resolution (spec section 4.3): an
ordered token list, first token contained in the lower-cased name wins,
mapped to its kind. Used only to compare with `resolveBackend`. -/
def backendTokens : List (List Char × BackendKind) :=
  [(rockstorTok, .rockstor), (chunkyTok, .chunky),
   (manyrocksTok, .manyRocks), (rockcfstorTok, .rockCFstor)]

/-- Spec-side backend resolution: first token of `backendTokens`
contained in the lower-cased raw name. -/
def resolveBackendSpec (raw : String) : Option BackendKind :=
  (backendTokens.find? fun p => containsChars (lowerChars raw) p.1).map Prod.snd

/-- Base-directory resolution, lines 192 and 211-224: `opts.BaseDir` is
initialised to the `--dir` value, then a `switch` overwrites it with the
first non-empty of the CLI value, `CHERAMI_STORE`, and
`StorageConfig.BaseDir`; the default case leaves the initial value. -/
def resolveBaseDir (cliArg envVar configVal : String) : String :=
  if cliArg ≠ "" then cliArg
  else if envVar ≠ "" then envVar
  else if configVal ≠ "" then configVal
  else cliArg

/-- The `storehost.Options` record assembled by `StartStoreHostService`
(lines 186-224). -/
structure StoreOptions where
  store : Option BackendKind
  baseDir : String
deriving DecidableEq, Repr

/-- Store-role option assembly, lines 186-224: `flag.StringVar` gives
`storeStr` the default `cfg.GetStorageConfig().GetStore()` and `baseDir`
the default empty string when the flags are absent; then the backend and
base-directory switches run. -/
def storeOpts (env : SysEnv) : StoreOptions :=
  let storeStr := env.cliStore.getD env.cfg.storageConfig.store
  let baseDir := env.cliDir.getD ""
  { store := resolveBackend storeStr,
    baseDir := resolveBaseDir baseDir env.cheramiStore env.cfg.storageConfig.baseDir }

/-- Observable bootstrap events, in program order: the
`os.Setenv("port", ...)` call, a `log.Panic` on its failure, the
invocation of `metadata.NewCassandraMetadataService`, a fatal log on its
failure, the construction of the service bundle (`common.NewService`)
with the role's identity UUID, the start of the primary host
(`h.Start(tc)`), the websocket server (`common.WSStart`) with its bind
address and port, and the diagnostic loop (`common.ServiceLoop`) with
its port. -/
inductive Event
  | setEnv (name val : String)
  | panicEvent (err : String)
  | metaConstruct
  | fatalEvent (msg err : String)
  | newService (role : Role) (uuid : String)
  | startPrimary (role : Role)
  | wsStart (addr : String) (port : Nat)
  | serviceLoop (port : Nat)
deriving DecidableEq, Repr

/-- `startService r env` is the event trace of the Go function
`StartXService` for role `r` under external effects `env`. All six Go
functions share this shape: export the port to the environment
(panicking on failure), construct the metadata client (fatal on
failure), build the service bundle with the role's identity, start the
primary host, then the websocket server for roles that have one, then
the diagnostic loop on `port + diagnosticPortOffset`. -/
def startService (r : Role) (env : SysEnv) : List Event :=
  let sc := env.cfg.getServiceConfig r
  Event.setEnv "port" (toString sc.port) ::
    match env.setenvResult with
    | some e => [Event.panicEvent e]
    | none =>
      Event.metaConstruct ::
        match env.metaResult with
        | .error err => [Event.fatalEvent (fatalMsg r) err]
        | .ok _ =>
          Event.newService r (resolveIdentity r env) ::
            Event.startPrimary r ::
              (if hasWebsocket r then
                [Event.wsStart sc.listenAddress sc.websocketPort] else []) ++
                [Event.serviceLoop (sc.port + diagnosticPortOffset)]

/-- An event that opens a network listener: the primary host start, the
websocket server, or the diagnostic HTTP loop. -/
def isListener : Event → Bool
  | .startPrimary _ => true
  | .wsStart _ _ => true
  | .serviceLoop _ => true
  | _ => false

/-- An event marking the completed construction of the service bundle
(`common.NewService`). -/
def isBundle : Event → Bool
  | .newService _ _ => true
  | _ => false

/-- A trace opens no listener before the service bundle is constructed:
every event strictly before the first `newService` event is a
non-listener event. -/
def noListenerBeforeBundle : List Event → Bool
  | [] => true
  | e :: t => if isBundle e then true else !isListener e && noListenerBeforeBundle t

/-- A concrete server configuration used to instantiate theorems. -/
def sampleCfg : ServerConfig :=
  { getServiceConfig := fun _ => { port := 4240, websocketPort := 6189, listenAddress := "127.0.0.1" },
    storageConfig := { store := "manyrocks", baseDir := "/data/c", hostUUID := "uuid-1" } }

/-- A concrete environment where every external effect succeeds. -/
def sampleEnv : SysEnv :=
  { cfg := sampleCfg, setenvResult := none, metaResult := .ok (),
    freshUUID := "u1", cheramiStore := "", cliStore := none, cliDir := none }

/-- Like `sampleEnv` but with a different random UUID draw. -/
def sampleEnvB : SysEnv :=
  { cfg := sampleCfg, setenvResult := none, metaResult := .ok (),
    freshUUID := "u2", cheramiStore := "", cliStore := none, cliDir := none }

/-- A concrete environment where metadata-client construction fails. -/
def sampleEnvErr : SysEnv :=
  { cfg := sampleCfg, setenvResult := none, metaResult := .error "boom",
    freshUUID := "u1", cheramiStore := "", cliStore := none, cliDir := none }

/-- A concrete environment where `os.Setenv` fails. -/
def sampleEnvPanic : SysEnv :=
  { cfg := sampleCfg, setenvResult := some "eacces", metaResult := .ok (),
    freshUUID := "u1", cheramiStore := "", cliStore := none, cliDir := none }

/-- Claim C1: the resolved base directory is the first non-empty value in
the order CLI argument, `CHERAMI_STORE` environment variable,
`StorageConfig.BaseDir` config value; when all three are empty it is left
empty so the store host applies its own default. -/
theorem C1_resolveBaseDir_precedence (cli env cfg : String) :
    (cli ≠ "" → resolveBaseDir cli env cfg = cli) ∧
    (cli = "" → env ≠ "" → resolveBaseDir cli env cfg = env) ∧
    (cli = "" → env = "" → cfg ≠ "" → resolveBaseDir cli env cfg = cfg) ∧
    (cli = "" → env = "" → cfg = "" → resolveBaseDir cli env cfg = "") := by
  refine ⟨?_, ?_, ?_, ?_⟩ <;> intros <;> simp_all [resolveBaseDir]

/-- Witness for C1 at a concrete input. -/
theorem C1_resolveBaseDir_precedence_witness :
    resolveBaseDir "" "/data/b" "/data/c" = "/data/b" :=
  (C1_resolveBaseDir_precedence "" "/data/b" "/data/c").2.1 rfl (by decide)

/-- Claim C2: backend resolution lower-cases the raw name and selects the
kind of the first token of `rockstor`, `chunky`, `manyrocks`,
`rockcfstor` (in that priority order) contained in it, and sets no kind
when none is contained; in particular a name containing `Rockstor` in any
case maps to the rockstor kind and an unrecognized name maps to none. -/
theorem C2_resolveBackend_first_token :
    (∀ raw, resolveBackend raw = resolveBackendSpec raw) ∧
    resolveBackend "MyRockstorDB" = some BackendKind.rockstor ∧
    resolveBackend "foo" = none := by
  refine ⟨fun raw => ?_, by decide, by decide⟩
  unfold resolveBackend resolveBackendSpec backendTokens
  cases h1 : containsChars (lowerChars raw) rockstorTok <;>
    cases h2 : containsChars (lowerChars raw) chunkyTok <;>
      cases h3 : containsChars (lowerChars raw) manyrocksTok <;>
        cases h4 : containsChars (lowerChars raw) rockcfstorTok <;>
          simp [h1, h2, h3, h4, List.find?]

/-- Claim C6: the storage role's service identity is exactly the
configured `StorageConfig.HostUUID`, and any two invocations with the
same configuration yield the same UUID. -/
theorem C6_store_identity_stable :
    (∀ env : SysEnv, resolveIdentity .store env = env.cfg.storageConfig.hostUUID) ∧
    (∀ e1 e2 : SysEnv, e1.cfg = e2.cfg →
      resolveIdentity .store e1 = resolveIdentity .store e2) := by
  refine ⟨fun env => rfl, fun e1 e2 h => ?_⟩
  simp [resolveIdentity, h]

/-- Witness for C6: two environments sharing a configuration but drawing
different random UUIDs still yield the same storage identity. -/
theorem C6_store_identity_stable_witness :
    resolveIdentity .store sampleEnv = resolveIdentity .store sampleEnvB :=
  C6_store_identity_stable.2 sampleEnv sampleEnvB rfl

/-- Claim C7: every non-storage role's service identity is the freshly
drawn random UUID, independent of the configuration, so two invocations
with identical configuration but different random draws return different
UUIDs. -/
theorem C7_nonstore_identity_ephemeral :
    (∀ (r : Role), r ≠ .store → ∀ env : SysEnv, resolveIdentity r env = env.freshUUID) ∧
    (∀ (r : Role), r ≠ .store → ∀ e1 e2 : SysEnv, e1.cfg = e2.cfg →
      e1.freshUUID ≠ e2.freshUUID → resolveIdentity r e1 ≠ resolveIdentity r e2) := by
  have base : ∀ (r : Role), r ≠ .store → ∀ env : SysEnv,
      resolveIdentity r env = env.freshUUID := by
    intro r hr env
    cases r <;> first | rfl | exact absurd rfl hr
  refine ⟨base, fun r hr e1 e2 _ hne => ?_⟩
  rw [base r hr e1, base r hr e2]
  exact hne

/-- Witness for C7 at the input role and two concrete environments. -/
theorem C7_nonstore_identity_ephemeral_witness :
    resolveIdentity .input sampleEnv ≠ resolveIdentity .input sampleEnvB :=
  C7_nonstore_identity_ephemeral.2 .input (by decide) sampleEnv sampleEnvB rfl (by decide)

/-- Claim C10: when the `--store` flag is absent the raw backend name fed
to backend resolution is `StorageConfig.Store`, and when the flag is
supplied its value takes precedence over the config value. -/
theorem C10_store_flag_defaults_to_config (env : SysEnv) :
    (env.cliStore = none →
      (storeOpts env).store = resolveBackend env.cfg.storageConfig.store) ∧
    (∀ s, env.cliStore = some s → (storeOpts env).store = resolveBackend s) := by
  constructor <;> intros <;> simp_all [storeOpts]

/-- Witness for C10 at a concrete environment with no `--store` flag. -/
theorem C10_store_flag_defaults_to_config_witness :
    (storeOpts sampleEnv).store = resolveBackend "manyrocks" :=
  (C10_store_flag_defaults_to_config sampleEnv).1 rfl

/-- Claim C3: for every role, when metadata-client construction fails
(the port export having succeeded), the bootstrap trace opens no network
listener and ends with the fatal event carrying the role's message and
the underlying error. -/
theorem C3_meta_failure_fatal_before_listeners (r : Role) (env : SysEnv)
    (err : String) (hs : env.setenvResult = none)
    (hm : env.metaResult = .error err) :
    (startService r env).filter isListener = [] ∧
    (startService r env).getLast? = some (.fatalEvent (fatalMsg r) err) := by
  obtain ⟨cfg, se, mr, fu, cs, clis, clid⟩ := env
  simp only at hs hm
  subst hs hm
  simp [startService, isListener]

/-- Witness for C3: the input role under a concrete failing metadata
client. -/
theorem C3_meta_failure_fatal_before_listeners_witness :
    (startService .input sampleEnvErr).filter isListener = [] ∧
    (startService .input sampleEnvErr).getLast? =
      some (.fatalEvent (fatalMsg .input) "boom") :=
  C3_meta_failure_fatal_before_listeners .input sampleEnvErr "boom" rfl rfl

/-- Claim C4: for every role, no listener event precedes the service
bundle's construction; the bundle is only ever constructed after a
successful port export and metadata-client construction; and on success
the listeners start in the order primary host, websocket (exactly for
the roles with a streaming transport, on the configured listen address
and websocket port), diagnostic loop. -/
theorem C4_listener_order_after_bundle (r : Role) (env : SysEnv) :
    noListenerBeforeBundle (startService r env) = true ∧
    (∀ ro u, Event.newService ro u ∈ startService r env →
      env.setenvResult = none ∧ env.metaResult = .ok ()) ∧
    (env.setenvResult = none → env.metaResult = .ok () →
      (startService r env).filter isListener =
        Event.startPrimary r ::
          ((if hasWebsocket r then
            [Event.wsStart (env.cfg.getServiceConfig r).listenAddress
              (env.cfg.getServiceConfig r).websocketPort] else []) ++
            [Event.serviceLoop
              ((env.cfg.getServiceConfig r).port + diagnosticPortOffset)])) := by
  obtain ⟨cfg, se, mr, fu, cs, clis, clid⟩ := env
  cases se <;> cases mr <;> cases r <;>
    simp [startService, noListenerBeforeBundle, isBundle, isListener, hasWebsocket]

/-- Witness for C4: the store role under a concrete all-success
environment. -/
theorem C4_listener_order_after_bundle_witness :
    (startService .store sampleEnv).filter isListener =
      Event.startPrimary .store ::
        ((if hasWebsocket .store then
          [Event.wsStart (sampleEnv.cfg.getServiceConfig .store).listenAddress
            (sampleEnv.cfg.getServiceConfig .store).websocketPort] else []) ++
          [Event.serviceLoop
            ((sampleEnv.cfg.getServiceConfig .store).port + diagnosticPortOffset)]) :=
  (C4_listener_order_after_bundle .store sampleEnv).2.2 rfl rfl

/-- Claim C5: the diagnostic port offset is the fixed constant 10000 and,
for every role and environment, any diagnostic loop in the trace is bound
to the role's primary port plus 10000. -/
theorem C5_diagnostic_port_offset_fixed (r : Role) (env : SysEnv) (p : Nat)
    (hp : Event.serviceLoop p ∈ startService r env) :
    diagnosticPortOffset = 10000 ∧
    p = (env.cfg.getServiceConfig r).port + 10000 := by
  obtain ⟨cfg, se, mr, fu, cs, clis, clid⟩ := env
  refine ⟨rfl, ?_⟩
  cases se <;> cases mr <;> cases r <;>
    simp_all [startService, diagnosticPortOffset, hasWebsocket]

/-- Witness for C5: the input role's diagnostic loop port at a concrete
configuration with primary port 4240. -/
theorem C5_diagnostic_port_offset_fixed_witness :
    diagnosticPortOffset = 10000 ∧
    14240 = (sampleEnv.cfg.getServiceConfig .input).port + 10000 :=
  C5_diagnostic_port_offset_fixed .input sampleEnv 14240 (by decide)

/-- Claim C9: for every role the first bootstrap event is the export of
the environment variable named `port`, holding the primary port in
decimal; and when that export fails the trace is just the export attempt
followed by the panic, with no metadata-client construction and no
listener. -/
theorem C9_port_export_first (r : Role) (env : SysEnv) :
    (startService r env).head? =
      some (.setEnv "port" (toString (env.cfg.getServiceConfig r).port)) ∧
    (∀ e, env.setenvResult = some e →
      startService r env =
        [.setEnv "port" (toString (env.cfg.getServiceConfig r).port),
         .panicEvent e] ∧
      Event.metaConstruct ∉ startService r env ∧
      (startService r env).filter isListener = []) := by
  obtain ⟨cfg, se, mr, fu, cs, clis, clid⟩ := env
  constructor
  · cases se <;> cases mr <;> cases r <;> simp [startService, hasWebsocket]
  · intro e he
    simp only at he
    subst he
    simp [startService, isListener]

/-- Witness for C9: the store role under a concrete failing
`os.Setenv`. -/
theorem C9_port_export_first_witness :
    startService .store sampleEnvPanic =
      [.setEnv "port" (toString (sampleEnvPanic.cfg.getServiceConfig .store).port),
       .panicEvent "eacces"] ∧
    Event.metaConstruct ∉ startService .store sampleEnvPanic ∧
    (startService .store sampleEnvPanic).filter isListener = [] :=
  (C9_port_export_first .store sampleEnvPanic).2 "eacces" rfl

/-- Claim C8 is violated by the code: the output and replicator roles log
the frontend role's fatal message `frontendhost: unable to instantiate
metadata service` verbatim, and the controller's message names no role;
evaluating the output role's bootstrap at a failing metadata client shows
the wrongly-attributed fatal event. -/
theorem C8_fatal_message_names_wrong_role :
    fatalMsg .output = "frontendhost: unable to instantiate metadata service" ∧
    fatalMsg .replicator = "frontendhost: unable to instantiate metadata service" ∧
    containsSub (fatalMsg .output) "output" = false ∧
    containsSub (fatalMsg .replicator) "replicator" = false ∧
    containsSub (fatalMsg .controller) "controller" = false ∧
    (startService .output sampleEnvErr).getLast? =
      some (.fatalEvent "frontendhost: unable to instantiate metadata service" "boom") := by
  refine ⟨rfl, rfl, by decide, by decide, by decide, by decide⟩

end Cherami
